import Mathlib

/-!
Verification of the slot-lifecycle engine.

Shallow embedding of the repository's core code:
  * the schema and tier catalog (`shopTypes`)
  * the in-memory store `MemStorage` (slots, ping usage, users)
  * the bot handlers (`handleSlotAdd`, `handleSlotRemove`,
    `handleEveryonePing`, `revokeSlotPermissions`, the expiration checker)
  * the HTTP create-slot route (`POST /api/slots`)

Timestamps are integers (milliseconds since epoch, as JavaScript `Date`
values compare by their millisecond value); nullable columns are `Option`.
External (Discord) calls are modelled by boolean success flags; a `false`
flag stands for the call throwing, and the code's try/catch structure is
reproduced by where a failure cuts the control flow.  Record ids are
drawn from a counter, standing in for the opaque unique UUIDs.
-/

namespace SlotWatcher

/-- The five shop tiers (`shopType` column: level1..level4, partnered). -/
inductive ShopType where
  | level1
  | level2
  | level3
  | level4
  | partnered
deriving Repr, DecidableEq

/-- One entry of the tier catalog: duration (null = lifetime), ping
cooldown window, pings allowed per window.  All times in milliseconds. -/
structure ShopConfig where
  duration : Option Int
  pingCooldown : Int
  pingsPerCooldown : Nat
deriving Repr, DecidableEq

/-- The tier catalog `shopTypes` from the shared schema. -/
def shopTypes : ShopType → ShopConfig
  | .level1 => { duration := some 604800000, pingCooldown := 259200000, pingsPerCooldown := 1 }
  | .level2 => { duration := some 1209600000, pingCooldown := 172800000, pingsPerCooldown := 1 }
  | .level3 => { duration := some 2592000000, pingCooldown := 86400000, pingsPerCooldown := 1 }
  | .level4 => { duration := none, pingCooldown := 86400000, pingsPerCooldown := 1 }
  | .partnered => { duration := none, pingCooldown := 86400000, pingsPerCooldown := 2 }

/-- A user record (`users` table). -/
structure User where
  id : Nat
  discordId : String
  username : String
deriving Repr, DecidableEq

/-- A slot record (`slots` table). -/
structure Slot where
  id : Nat
  userId : String
  discordUserId : String
  username : String
  shopType : ShopType
  channelId : String
  originalChannelName : String
  roleId : Option String
  expiresAt : Option Int
  isActive : Bool
  createdAt : Option Int
deriving Repr, DecidableEq

/-- A ping-usage record (`ping_usage` table). -/
structure PingUsage where
  id : Nat
  slotId : Nat
  discordUserId : String
  usedAt : Option Int
  messageId : Option String
  channelId : Option String
deriving Repr, DecidableEq

/-- The body accepted by `POST /api/slots` (`insertSlotSchema`): every slot
column except `id` and `createdAt`, all caller-supplied. -/
structure InsertSlot where
  userId : String
  discordUserId : String
  username : String
  shopType : ShopType
  channelId : String
  originalChannelName : String
  roleId : Option String
  expiresAt : Option Int
  isActive : Bool
deriving Repr, DecidableEq

/-- The `MemStorage` state: the three maps, in insertion order, plus the
fresh-id counter standing in for `randomUUID`. -/
structure Storage where
  users : List User
  slots : List Slot
  pings : List PingUsage
  nextId : Nat
deriving Repr, DecidableEq

/-- `MemStorage.getUserByDiscordId`. -/
def getUserByDiscordId (st : Storage) (d : String) : Option User :=
  st.users.find? (fun u => u.discordId == d)

/-- `MemStorage.createUser`. -/
def createUser (st : Storage) (d un : String) : Storage × User :=
  let u : User := { id := st.nextId, discordId := d, username := un }
  ({ st with users := st.users ++ [u], nextId := st.nextId + 1 }, u)

/-- The predicate of `MemStorage.getSlotByDiscordUserId`: same discord user
and `isActive` truthy. -/
def slotActiveFor (d : String) (s : Slot) : Bool :=
  s.discordUserId == d && s.isActive

/-- `MemStorage.getSlotByDiscordUserId`: first slot matching the user with
`isActive` set. -/
def getSlotByDiscordUserId (st : Storage) (d : String) : Option Slot :=
  st.slots.find? (slotActiveFor d)

/-- `MemStorage.getAllActiveSlots`. -/
def getAllActiveSlots (st : Storage) : List Slot :=
  st.slots.filter (fun s => s.isActive)

/-- The filter of `MemStorage.getExpiredSlots`:
`slot.isActive && slot.expiresAt && slot.expiresAt < now` (a `Date` object
is always truthy, so the middle conjunct is a non-null test). -/
def expiredPred (now : Int) (s : Slot) : Bool :=
  s.isActive && (match s.expiresAt with
    | some e => decide (e < now)
    | none => false)

/-- `MemStorage.getExpiredSlots`. -/
def getExpiredSlots (st : Storage) (now : Int) : List Slot :=
  st.slots.filter (expiredPred now)

/-- `MemStorage.createSlot`: fresh id, `createdAt` now, no other checks. -/
def createSlot (st : Storage) (b : InsertSlot) (now : Int) : Storage × Slot :=
  let s : Slot :=
    { id := st.nextId, userId := b.userId, discordUserId := b.discordUserId,
      username := b.username, shopType := b.shopType, channelId := b.channelId,
      originalChannelName := b.originalChannelName, roleId := b.roleId,
      expiresAt := b.expiresAt, isActive := b.isActive, createdAt := some now }
  ({ st with slots := st.slots ++ [s], nextId := st.nextId + 1 }, s)

/-- `MemStorage.updateSlot(id, \x7b isActive: false \x7d)` as used by every
revoke path: the record keyed by `id` gets `isActive` cleared, everything
else is untouched. -/
def deactivateSlot (st : Storage) (i : Nat) : Storage :=
  { st with slots := st.slots.map (fun s =>
      if s.id == i then { s with isActive := false } else s) }

/-- The filter of `MemStorage.getPingUsage`:
`usage.slotId === slotId && usage.usedAt && usage.usedAt >= since`. -/
def pingSincePred (sid : Nat) (since : Int) (p : PingUsage) : Bool :=
  p.slotId == sid && (match p.usedAt with
    | some t => decide (since ≤ t)
    | none => false)

/-- `MemStorage.getPingUsage`. -/
def getPingUsage (st : Storage) (sid : Nat) (since : Int) : List PingUsage :=
  st.pings.filter (pingSincePred sid since)

/-- `MemStorage.createPingUsage`: fresh id, `usedAt` now. -/
def createPingUsage (st : Storage) (sid : Nat) (d mid chid : String)
    (now : Int) : Storage × PingUsage :=
  let p : PingUsage :=
    { id := st.nextId, slotId := sid, discordUserId := d,
      usedAt := some now, messageId := some mid, channelId := some chid }
  ({ st with pings := st.pings ++ [p], nextId := st.nextId + 1 }, p)

/-- `usage.usedAt && usage.usedAt >= t0`: ping used on or after `t0`. -/
def pingOnOrAfter (p : PingUsage) (t0 : Int) : Bool :=
  match p.usedAt with
  | some t => decide (t0 ≤ t)
  | none => false

/-- `slot.expiresAt && slot.expiresAt <= t`: non-null expiry at most `t`. -/
def slotExpiresBy (s : Slot) (t : Int) : Bool :=
  match s.expiresAt with
  | some e => decide (e ≤ t)
  | none => false

/-- The record returned by `MemStorage.getSlotStats`. -/
structure SlotStats where
  totalSlots : Nat
  activeSlots : Nat
  expiringSoon : Nat
  todayPings : Nat
deriving Repr, DecidableEq

/-- `MemStorage.getSlotStats`.  `now` is the current time and `todayStart`
the current calendar day's midnight (`new Date(year, month, date)`). -/
def getSlotStats (st : Storage) (now todayStart : Int) : SlotStats :=
  let active := getAllActiveSlots st
  let tomorrow := now + 86400000
  { totalSlots := st.slots.length
    activeSlots := active.length
    expiringSoon := (active.filter (fun s => slotExpiresBy s tomorrow)).length
    todayPings := (st.pings.filter (fun p => pingOnOrAfter p todayStart)).length }

/-- The `POST /api/slots` route: parse the body and call
`storage.createSlot` directly — no duplicate-slot or expiry check. -/
def postSlotsRoute (st : Storage) (b : InsertSlot) (now : Int) : Storage × Slot :=
  createSlot st b now

/-- Externally observable Discord actions issued by the revoke and
quota paths. -/
inductive ExtAction where
  | removeRole (rid d : String)
  | deleteOverwrite (chid d : String)
  | restoreName (chid orig : String)
  | deleteMessage (mid : String)
  | dmUser (d : String)
  | channelNotice (chid : String)
deriving Repr, DecidableEq

/-- Success flags for each external call made while revoking a slot's
permissions; `false` stands for the call throwing (or, for the `Found`
and `IsText` flags, a falsy lookup result). -/
structure RevokeExt where
  guildOk : Bool
  roleFetchOk : Bool
  roleFound : Bool
  memberOk : Bool
  removeOk : Bool
  chanFetchOk : Bool
  chanFound : Bool
  chanIsText : Bool
  permDelOk : Bool
  renameOk : Bool
deriving Repr, DecidableEq

/-- The behaviour in which every external call fails. -/
def revokeExtAllFail : RevokeExt :=
  { guildOk := false, roleFetchOk := false, roleFound := false,
    memberOk := false, removeOk := false, chanFetchOk := false,
    chanFound := false, chanIsText := false, permDelOk := false,
    renameOk := false }

/-- The behaviour in which every external call succeeds. -/
def revokeExtAllOk : RevokeExt :=
  { guildOk := true, roleFetchOk := true, roleFound := true,
    memberOk := true, removeOk := true, chanFetchOk := true,
    chanFound := true, chanIsText := true, permDelOk := true,
    renameOk := true }

/-- The role block of `revokeSlotPermissions`: guarded by
`if (slot.roleId)`, wrapped in its own try/catch, so a throw at any of
fetch-role, fetch-member or remove-role is logged (second component
counts logged errors) and abandons only this block. -/
def revokeRolePart (ext : RevokeExt) (s : Slot) : List ExtAction × Nat :=
  match s.roleId with
  | none => ([], 0)
  | some rid =>
    if ext.roleFetchOk then
      if ext.roleFound then
        if ext.memberOk then
          if ext.removeOk then ([ExtAction.removeRole rid s.discordUserId], 0)
          else ([], 1)
        else ([], 1)
      else ([], 0)
    else ([], 1)

/-- The channel block of `revokeSlotPermissions`: its own try/catch;
on a text channel it deletes the user's permission overwrite and then
restores the original channel name; a failed overwrite delete skips the
rename, a failed rename still leaves the delete done. -/
def revokeChanPart (ext : RevokeExt) (s : Slot) : List ExtAction × Nat :=
  if ext.chanFetchOk then
    if ext.chanFound && ext.chanIsText then
      if ext.permDelOk then
        if ext.renameOk then
          ([ExtAction.deleteOverwrite s.channelId s.discordUserId,
            ExtAction.restoreName s.channelId s.originalChannelName], 0)
        else ([ExtAction.deleteOverwrite s.channelId s.discordUserId], 1)
      else ([], 1)
    else ([], 0)
  else ([], 1)

/-- `revokeSlotPermissions`: fetch the guild, then the role block and the
channel block.  Every failure path ends in a catch that only logs, so
the function always returns (never throws): it yields the performed
external actions and the number of logged errors. -/
def revokeSlotPermissions (ext : RevokeExt) (s : Slot) : List ExtAction × Nat :=
  if ext.guildOk then
    let r := revokeRolePart ext s
    let c := revokeChanPart ext s
    (r.1 ++ c.1, r.2 + c.2)
  else ([], 1)

/-- Result of the `/slotadd` bot command. -/
inductive AddResult where
  | duplicateSlot
  | roleNotConfigured
  | roleNotFound
  | extFailure
  | created (s : Slot)
deriving Repr, DecidableEq

/-- Success flags for the external calls of the grant path (member fetch,
role add, permission overwrite, channel rename); a `false` throws into
the handler's catch, before the slot record is created. -/
structure GrantExt where
  roleFound : Bool
  memberOk : Bool
  addRoleOk : Bool
  permOk : Bool
  renameOk : Bool
deriving Repr, DecidableEq

/-- The get-or-create step for the holder's user record inside
`handleSlotAdd`; yields the (possibly unchanged) storage and the user id. -/
def upsertUser (st : Storage) (d un : String) : Storage × Nat :=
  match getUserByDiscordId st d with
  | some u => (st, u.id)
  | none =>
    let r := createUser st d un
    (r.1, r.2.id)

/-- The insert body built by the grant path: original channel name
recorded for restoration, `expiresAt = duration ? now + duration : null`
from the catalog, active. -/
def grantEntry (uid : Nat) (d un : String) (ty : ShopType)
    (chid chname rid : String) (now : Int) : InsertSlot :=
  { userId := toString uid, discordUserId := d, username := un,
    shopType := ty, channelId := chid, originalChannelName := chname,
    roleId := some rid,
    expiresAt := match (shopTypes ty).duration with
      | some dur => some (now + dur)
      | none => none,
    isActive := true }

/-- `handleSlotAdd` (the `/slotadd` command): refuse when the holder
already has an active slot; upsert the user; resolve the configured slot
role; run the external grant calls; create the slot record. -/
def handleSlotAdd (st : Storage) (d un : String) (ty : ShopType)
    (chid chname : String) (slotRoleId : Option String) (ext : GrantExt)
    (now : Int) : AddResult × Storage :=
  if (getSlotByDiscordUserId st d).isSome then (.duplicateSlot, st)
  else
    let r0 := upsertUser st d un
    match slotRoleId with
    | none => (.roleNotConfigured, r0.1)
    | some rid =>
      if !ext.roleFound then (.roleNotFound, r0.1)
      else if !(ext.memberOk && ext.addRoleOk && ext.permOk && ext.renameOk) then
        (.extFailure, r0.1)
      else
        let r := createSlot r0.1 (grantEntry r0.2 d un ty chid chname rid now) now
        (.created r.2, r.1)

/-- Result of the `/slotremove` bot command. -/
inductive RemoveResult where
  | noActiveSlot
  | removed
deriving Repr, DecidableEq

/-- `handleSlotRemove` (the `/slotremove` command): find the holder's
active slot, revoke its external permissions (best effort), then clear
its `isActive` flag. -/
def handleSlotRemove (st : Storage) (d : String) (ext : RevokeExt) :
    RemoveResult × Storage × List ExtAction :=
  match getSlotByDiscordUserId st d with
  | none => (.noActiveSlot, st, [])
  | some s =>
    let r := revokeSlotPermissions ext s
    (.removed, deactivateSlot st s.id, r.1)

/-- Outcome of one observed `@everyone`/`@here` message. -/
inductive PingOutcome where
  | ignored
  | errored
  | overLimit
  | recorded
deriving Repr, DecidableEq

/-- The body of `handleEveryonePing` once the author's slot is found:
re-check `isActive` (redundant after the lookup); count the pings in the
trailing cooldown window; at or over the limit delete the message
(`delOk = false` is the delete throwing into the handler's catch, which
skips everything after it), revoke permissions, deactivate the slot and
notify the holder (DM, falling back to a channel post); under the limit
record one ping-usage row. -/
def pingWithSlot (st : Storage) (d mid chid : String) (ext : RevokeExt)
    (delOk dmOk : Bool) (now : Int) (s : Slot) :
    PingOutcome × Storage × List ExtAction :=
  if !s.isActive then (.ignored, st, [])
  else
    let cfg := shopTypes s.shopType
    let recent := getPingUsage st s.id (now - cfg.pingCooldown)
    if cfg.pingsPerCooldown ≤ recent.length then
      if !delOk then (.errored, st, [])
      else
        let r := revokeSlotPermissions ext s
        let notice := if dmOk then [ExtAction.dmUser d]
          else [ExtAction.channelNotice chid]
        (.overLimit, deactivateSlot st s.id,
          ExtAction.deleteMessage mid :: r.1 ++ notice)
    else
      (.recorded, (createPingUsage st s.id d mid chid now).1, [])

/-- `handleEveryonePing`: look up the author's active slot — none found
(including the inactive case) is a bare return — and otherwise run the
quota decision on it. -/
def handleEveryonePing (st : Storage) (d mid chid : String)
    (ext : RevokeExt) (delOk dmOk : Bool) (now : Int) :
    PingOutcome × Storage × List ExtAction :=
  match getSlotByDiscordUserId st d with
  | none => (.ignored, st, [])
  | some s => pingWithSlot st d mid chid ext delOk dmOk now s

/-- The body of the expiration checker's loop for one expired slot:
revoke the external permissions, then clear the `isActive` flag. -/
def expireSlotStep (ext : RevokeExt) (s : Slot)
    (acc : Storage × List ExtAction) : Storage × List ExtAction :=
  let r := revokeSlotPermissions ext s
  (deactivateSlot acc.1 s.id, acc.2 ++ r.1)

/-- One tick of `startExpirationChecker`: fetch the expired slots, then
process each in order.  `ext` gives the external-call behaviour per slot
id, so different slots may fail differently. -/
def expirationTick (st : Storage) (now : Int) (ext : Nat → RevokeExt) :
    Storage × List ExtAction :=
  (getExpiredSlots st now).foldl (fun acc s => expireSlotStep (ext s.id) s acc)
    (st, [])

/-- Spec-side invariant: number of active slot records held by one
discord user. -/
def activeCountFor (st : Storage) (d : String) : Nat :=
  st.slots.countP (slotActiveFor d)

/-- Spec-side invariant: at most one active slot per holder. -/
def AtMostOneActive (st : Storage) : Prop :=
  ∀ d : String, activeCountFor st d ≤ 1

/-- Spec-side count: ping events of a slot with `usedAt` inside the
closed interval from `lo` to `hi`. -/
def pingsInInterval (st : Storage) (sid : Nat) (lo hi : Int) : Nat :=
  st.pings.countP (fun p => p.slotId == sid && (match p.usedAt with
    | some t => decide (lo ≤ t) && decide (t ≤ hi)
    | none => false))

/-- No ping event in the store is stamped after `now`. -/
def pingsNotAfter (st : Storage) (now : Int) : Bool :=
  st.pings.all (fun p => match p.usedAt with
    | some t => decide (t ≤ now)
    | none => true)

/-- Relation between a slot record after some deactivations and the
record it came from: same id and expiry, and it can only have lost
activity, never gained it. -/
def Shadow (a b : Slot) : Prop :=
  a.id = b.id ∧ a.expiresAt = b.expiresAt ∧ (a.isActive = true → b.isActive = true)

theorem shadow_refl (a : Slot) : Shadow a a :=
  ⟨rfl, rfl, fun h => h⟩

theorem shadow_trans {a b c : Slot} (hab : Shadow a b) (hbc : Shadow b c) :
    Shadow a c :=
  ⟨hab.1.trans hbc.1, hab.2.1.trans hbc.2.1, fun h => hbc.2.2 (hab.2.2 h)⟩

theorem getSlot_some_props {st : Storage} {d : String} {s : Slot}
    (h : getSlotByDiscordUserId st d = some s) :
    s ∈ st.slots ∧ s.discordUserId = d ∧ s.isActive = true := by
  have hp := List.find?_some h
  simp only [slotActiveFor, Bool.and_eq_true, beq_iff_eq] at hp
  exact ⟨List.mem_of_find?_eq_some h, hp.1, hp.2⟩

theorem mem_deactivateSlot_shadow {st : Storage} {i : Nat} {a : Slot}
    (h : a ∈ (deactivateSlot st i).slots) : ∃ b ∈ st.slots, Shadow a b := by
  simp only [deactivateSlot, List.mem_map] at h
  obtain ⟨b, hb, hba⟩ := h
  refine ⟨b, hb, ?_⟩
  by_cases hid : (b.id == i) = true
  · rw [if_pos hid] at hba
    subst hba
    exact ⟨rfl, rfl, fun h => by simp at h⟩
  · rw [if_neg hid] at hba
    subst hba
    exact shadow_refl b

theorem deact_id_inactive {st : Storage} {i : Nat} {a : Slot}
    (h : a ∈ (deactivateSlot st i).slots) (hid : a.id = i) :
    a.isActive = false := by
  simp only [deactivateSlot, List.mem_map] at h
  obtain ⟨b, hb, hba⟩ := h
  by_cases hbi : (b.id == i) = true
  · rw [if_pos hbi] at hba
    subst hba
    rfl
  · rw [if_neg hbi] at hba
    subst hba
    exact absurd (beq_iff_eq.mpr hid) hbi

theorem tickFold_shadow (ext : Nat → RevokeExt) :
    ∀ (L : List Slot) (st0 : Storage) (acts : List ExtAction) (a : Slot),
      a ∈ ((L.foldl (fun acc s => expireSlotStep (ext s.id) s acc)
          (st0, acts)).1).slots →
      ∃ b ∈ st0.slots, Shadow a b := by
  intro L
  induction L with
  | nil =>
    intro st0 acts a h
    exact ⟨a, h, shadow_refl a⟩
  | cons s L ih =>
    intro st0 acts a h
    rw [List.foldl_cons] at h
    simp only [expireSlotStep] at h
    obtain ⟨b, hb, hab⟩ := ih _ _ a h
    obtain ⟨c, hc, hbc⟩ := mem_deactivateSlot_shadow hb
    exact ⟨c, hc, shadow_trans hab hbc⟩

theorem tickFold_deact (ext : Nat → RevokeExt) :
    ∀ (L : List Slot) (st0 : Storage) (acts : List ExtAction) (i : Nat),
      (∃ s ∈ L, s.id = i) →
      ∀ a ∈ ((L.foldl (fun acc s => expireSlotStep (ext s.id) s acc)
          (st0, acts)).1).slots,
        a.id = i → a.isActive = false := by
  intro L
  induction L with
  | nil =>
    intro st0 acts i hex a _ _
    obtain ⟨s, hs, _⟩ := hex
    cases hs
  | cons s L ih =>
    intro st0 acts i hex a ha haid
    rw [List.foldl_cons] at ha
    simp only [expireSlotStep] at ha
    obtain ⟨t, ht, htid⟩ := hex
    rcases List.mem_cons.mp ht with rfl | htl
    · cases hact : a.isActive with
      | false => rfl
      | true =>
        obtain ⟨b, hb, hab⟩ := tickFold_shadow ext L _ _ a ha
        have hbact : b.isActive = true := hab.2.2 hact
        have hbid : b.id = i := hab.1 ▸ haid
        have := deact_id_inactive hb (htid ▸ hbid)
        rw [this] at hbact
        cases hbact
    · exact ih _ _ i ⟨t, htl, htid⟩ a ha haid

theorem expirationTick_deactivates (st : Storage) (now : Int)
    (ext : Nat → RevokeExt) (s : Slot) (hs : s ∈ getExpiredSlots st now) :
    ∀ a ∈ (expirationTick st now ext).1.slots,
      a.id = s.id → a.isActive = false :=
  tickFold_deact ext (getExpiredSlots st now) st [] s.id ⟨s, hs, rfl⟩

theorem expirationTick_shadow (st : Storage) (now : Int)
    (ext : Nat → RevokeExt) {a : Slot}
    (h : a ∈ (expirationTick st now ext).1.slots) :
    ∃ b ∈ st.slots, Shadow a b :=
  tickFold_shadow ext (getExpiredSlots st now) st [] a h

theorem expired_after_tick (st : Storage) (now : Int) (ext : Nat → RevokeExt) :
    getExpiredSlots (expirationTick st now ext).1 now = [] := by
  rw [getExpiredSlots, List.filter_eq_nil_iff]
  intro a ha hp
  simp only [expiredPred, Bool.and_eq_true] at hp
  obtain ⟨b, hb, hab⟩ := expirationTick_shadow st now ext ha
  have hbexp : b ∈ getExpiredSlots st now := by
    rw [getExpiredSlots, List.mem_filter]
    refine ⟨hb, ?_⟩
    simp only [expiredPred, Bool.and_eq_true]
    exact ⟨hab.2.2 hp.1, hab.2.1 ▸ hp.2⟩
  have := expirationTick_deactivates st now ext b hbexp a ha hab.1
  rw [this] at hp
  cases hp.1

theorem two_le_countP {α : Type} {p : α → Bool} {l : List α} {a b : α}
    (ha : a ∈ l) (hb : b ∈ l) (hne : a ≠ b)
    (hpa : p a = true) (hpb : p b = true) : 2 ≤ l.countP p := by
  induction l with
  | nil => cases ha
  | cons x xs ih =>
    rw [List.countP_cons]
    rcases List.mem_cons.mp ha with rfl | ha2
    · rcases List.mem_cons.mp hb with rfl | hb2
      · exact absurd rfl hne
      · have h1 : 0 < xs.countP p := List.countP_pos_iff.mpr ⟨b, hb2, hpb⟩
        rw [if_pos hpa]
        omega
    · rcases List.mem_cons.mp hb with rfl | hb2
      · have h1 : 0 < xs.countP p := List.countP_pos_iff.mpr ⟨a, ha2, hpa⟩
        rw [if_pos hpb]
        omega
      · have := ih ha2 hb2
        omega

theorem getSlot_deact_none {st : Storage} {d : String} {s : Slot}
    (hs : getSlotByDiscordUserId st d = some s)
    (hone : activeCountFor st d ≤ 1) :
    getSlotByDiscordUserId (deactivateSlot st s.id) d = none := by
  rw [getSlotByDiscordUserId, List.find?_eq_none]
  intro a ha hpa
  simp only [deactivateSlot, List.mem_map] at ha
  obtain ⟨b, hb, hba⟩ := ha
  by_cases hid : (b.id == s.id) = true
  · rw [if_pos hid] at hba
    subst hba
    simp [slotActiveFor] at hpa
  · rw [if_neg hid] at hba
    subst hba
    have hsp := List.find?_some hs
    have hsm := List.mem_of_find?_eq_some hs
    have hne : b ≠ s := by
      intro he
      subst he
      exact hid (beq_iff_eq.mpr rfl)
    have h2 := two_le_countP hb hsm hne hpa hsp
    rw [activeCountFor, getSlotByDiscordUserId] at *
    omega

theorem getPingUsage_length_eq (st : Storage) (sid : Nat) (now w : Int)
    (hb : pingsNotAfter st now = true) :
    (getPingUsage st sid (now - w)).length
      = pingsInInterval st sid (now - w) now := by
  rw [getPingUsage, pingsInInterval, ← List.countP_eq_length_filter]
  refine List.countP_congr ?_
  intro p hp
  rw [pingsNotAfter, List.all_eq_true] at hb
  have hpn := hb p hp
  unfold pingSincePred
  cases h : p.usedAt with
  | none => simp
  | some t =>
    rw [h] at hpn
    simp only [decide_eq_true_eq] at hpn
    simp only [Bool.and_eq_true, decide_eq_true_eq, beq_iff_eq]
    constructor
    · rintro ⟨h1, h2⟩
      exact ⟨h1, h2, hpn⟩
    · rintro ⟨h1, h2, _⟩
      exact ⟨h1, h2⟩

theorem upsertUser_slots (st : Storage) (d un : String) :
    (upsertUser st d un).1.slots = st.slots := by
  unfold upsertUser
  cases getUserByDiscordId st d <;> rfl

theorem createSlot_fst_slots (st : Storage) (b : InsertSlot) (now : Int) :
    (createSlot st b now).1.slots = st.slots ++ [(createSlot st b now).2] :=
  rfl

theorem handleSlotAdd_slots (st : Storage) (d un : String) (ty : ShopType)
    (chid chn : String) (rid : Option String) (ext : GrantExt) (now : Int) :
    (handleSlotAdd st d un ty chid chn rid ext now).2.slots = st.slots ∨
    (getSlotByDiscordUserId st d = none ∧
      ∃ s : Slot, s.discordUserId = d ∧
        (handleSlotAdd st d un ty chid chn rid ext now).2.slots
          = st.slots ++ [s]) := by
  unfold handleSlotAdd
  split
  · left
    rfl
  next hdup =>
    have hnone : getSlotByDiscordUserId st d = none :=
      Option.not_isSome_iff_eq_none.mp hdup
    split
    · left
      exact upsertUser_slots st d un
    next rid0 =>
      split
      · left
        exact upsertUser_slots st d un
      · split
        · left
          exact upsertUser_slots st d un
        · right
          refine ⟨hnone, (createSlot (upsertUser st d un).1
            (grantEntry (upsertUser st d un).2 d un ty chid chn rid0 now) now).2,
            rfl, ?_⟩
          show (createSlot (upsertUser st d un).1
              (grantEntry (upsertUser st d un).2 d un ty chid chn rid0 now) now).1.slots
            = st.slots ++ [(createSlot (upsertUser st d un).1
              (grantEntry (upsertUser st d un).2 d un ty chid chn rid0 now) now).2]
          rw [createSlot_fst_slots, upsertUser_slots st d un]

theorem handleSlotAdd_created {st : Storage} {d un : String} {ty : ShopType}
    {chid chn : String} {rid : Option String} {ext : GrantExt} {now : Int}
    {s : Slot} {st2 : Storage}
    (h : handleSlotAdd st d un ty chid chn rid ext now = (.created s, st2)) :
    s.shopType = ty ∧
    s.expiresAt = (match (shopTypes ty).duration with
      | some dur => some (now + dur)
      | none => none) := by
  unfold handleSlotAdd at h
  split at h
  · simp at h
  · split at h
    · simp at h
    · split at h
      · simp at h
      · split at h
        · simp at h
        · simp only [Prod.mk.injEq, AddResult.created.injEq] at h
          rw [← h.1]
          exact ⟨rfl, rfl⟩

/-- Concrete store for the C4 boundary: one active slot expiring exactly
at time 1000. -/
def slotC4 : Slot :=
  { id := 0, userId := "0", discordUserId := "c4", username := "c4",
    shopType := .level1, channelId := "ch", originalChannelName := "o",
    roleId := none, expiresAt := some 1000, isActive := true,
    createdAt := some 0 }

def stC4 : Storage := { users := [], slots := [slotC4], pings := [], nextId := 1 }

/-- C4: the claim says a slot with expires-at equal to now is included in
`getExpiredSlots` (boundary inclusive).  The code filters with a strict
comparison, so the slot expiring exactly at now = 1000 — active, non-null
expiry, expiry ≤ now — is not returned. -/
theorem C4_counterexample :
    slotC4.isActive = true ∧ slotC4.expiresAt = some 1000 ∧
    slotC4 ∈ stC4.slots ∧ getExpiredSlots stC4 1000 = [] := by
  refine ⟨rfl, rfl, by decide, by decide⟩

/-- C4 (amended): for every store state and time, `getExpiredSlots`
returns exactly the slots with active=true, non-null expires-at, and
expires-at strictly less than now; no other condition affects
membership. -/
theorem C4_expired_membership (st : Storage) (now : Int) (s : Slot) :
    s ∈ getExpiredSlots st now ↔
      s ∈ st.slots ∧ s.isActive = true ∧
        ∃ e, s.expiresAt = some e ∧ e < now := by
  rw [getExpiredSlots, List.mem_filter]
  unfold expiredPred
  cases h : s.expiresAt with
  | none => simp [h]
  | some e => simp [h]

/-- Witness for C4: the amended criterion applied at a concrete input,
one millisecond past the expiry. -/
theorem C4_witness : slotC4 ∈ getExpiredSlots stC4 1001 :=
  (C4_expired_membership stC4 1001 slotC4).mpr
    ⟨by decide, rfl, 1000, rfl, by decide⟩

/-- Concrete store for C9: the holder's only slot is inactive. -/
def slotC9 : Slot :=
  { id := 0, userId := "0", discordUserId := "c9", username := "c9",
    shopType := .level3, channelId := "ch", originalChannelName := "o",
    roleId := some "r", expiresAt := some 99999, isActive := false,
    createdAt := some 0 }

def stC9 : Storage := { users := [], slots := [slotC9], pings := [], nextId := 1 }

/-- C9: the claim says a broadcast attempt by a holder whose slot is
inactive is rejected with a NoActiveSlot error.  The code's handler
returns silently: on this store, whose only slot for the holder is
inactive, the attempt produces the bare-return outcome, no store change
and no external action at all — in particular no error reply and no
deletion of the triggering message. -/
theorem C9_counterexample :
    (∃ s ∈ stC9.slots, s.discordUserId = "c9" ∧ s.isActive = false) ∧
    handleEveryonePing stC9 "c9" "m" "ch" revokeExtAllOk true true 1000
      = (.ignored, stC9, []) := by
  exact ⟨⟨slotC9, by decide, rfl, rfl⟩, by decide⟩

/-- C9 (amended): a broadcast attempt by a holder without an active slot
is silently ignored: the handler returns without signaling any error,
without recording a ping, without touching the store and without undoing
the message. -/
theorem C9_inactive_ignored (st : Storage) (d mid chid : String)
    (ext : RevokeExt) (delOk dmOk : Bool) (now : Int)
    (h : getSlotByDiscordUserId st d = none) :
    handleEveryonePing st d mid chid ext delOk dmOk now = (.ignored, st, []) := by
  unfold handleEveryonePing
  rw [h]

/-- Witness for C9's amended statement at a concrete input. -/
theorem C9_witness :
    handleEveryonePing stC9 "c9" "mw" "ch" revokeExtAllFail false false 5
      = (.ignored, stC9, []) :=
  C9_inactive_ignored stC9 "c9" "mw" "ch" revokeExtAllFail false false 5
    (by decide)

/-- All external grant calls succeed. -/
def grantExtAllOk : GrantExt :=
  { roleFound := true, memberOk := true, addRoleOk := true, permOk := true,
    renameOk := true }

/-- Concrete store for C1: one holder with an active slot. -/
def slotC1 : Slot :=
  { id := 0, userId := "0", discordUserId := "c1", username := "c1",
    shopType := .level2, channelId := "ch", originalChannelName := "o",
    roleId := some "r", expiresAt := some 99, isActive := true,
    createdAt := some 0 }

def stC1 : Storage := { users := [], slots := [slotC1], pings := [], nextId := 1 }

/-- A create-slot request body for the same holder. -/
def bodyC1 : InsertSlot :=
  { userId := "u", discordUserId := "c1", username := "c1",
    shopType := .level2, channelId := "ch2", originalChannelName := "o2",
    roleId := none, expiresAt := some 99, isActive := true }

/-- C1: the claim says every slot-creating operation preserves the
at-most-one-active-slot invariant.  The HTTP create-slot route performs
no duplicate check: posting a body for a holder who already has an active
slot takes an invariant-satisfying store to one with two active slots for
that holder. -/
theorem C1_counterexample :
    AtMostOneActive stC1 ∧ ¬ AtMostOneActive (postSlotsRoute stC1 bodyC1 50).1 := by
  constructor
  · intro d
    exact le_trans (List.countP_le_length _) (by decide)
  · intro h
    have h2 := h "c1"
    have h3 : activeCountFor (postSlotsRoute stC1 bodyC1 50).1 "c1" = 2 := by decide
    omega

/-- C1 (amended): the bot's grant command preserves the invariant of at
most one active slot per holder; the HTTP create-slot route does not
check and can violate it. -/
theorem C1_bot_grant_preserves (st : Storage) (d un : String) (ty : ShopType)
    (chid chn : String) (rid : Option String) (ext : GrantExt) (now : Int)
    (h : AtMostOneActive st) :
    AtMostOneActive (handleSlotAdd st d un ty chid chn rid ext now).2 := by
  rcases handleSlotAdd_slots st d un ty chid chn rid ext now with
    heq | ⟨hnone, s, hsd, heq⟩
  · intro d2
    rw [activeCountFor, heq]
    exact h d2
  · intro d2
    rw [activeCountFor, heq, List.countP_append]
    by_cases hd : d2 = d
    · subst hd
      have h0 : st.slots.countP (slotActiveFor d2) = 0 := by
        rw [List.countP_eq_zero]
        intro a ha hpa
        rw [getSlotByDiscordUserId, List.find?_eq_none] at hnone
        exact hnone a ha hpa
      have h1 : List.countP (slotActiveFor d2) [s] ≤ 1 :=
        le_trans (List.countP_le_length _) (by simp)
      omega
    · have hz : List.countP (slotActiveFor d2) [s] = 0 := by
        rw [List.countP_eq_zero]
        intro a ha hpa
        rw [List.mem_singleton] at ha
        subst ha
        simp only [slotActiveFor, hsd, Bool.and_eq_true, beq_iff_eq] at hpa
        exact hd hpa.1.symm
      have := h d2
      rw [activeCountFor] at this
      omega

/-- Witness for C1's amended statement: a grant on the empty store. -/
theorem C1_witness :
    AtMostOneActive
      (handleSlotAdd { users := [], slots := [], pings := [], nextId := 0 }
        "w1" "w1" .level3 "ch" "o" (some "r") grantExtAllOk 0).2 :=
  C1_bot_grant_preserves { users := [], slots := [], pings := [], nextId := 0 }
    "w1" "w1" .level3 "ch" "o" (some "r") grantExtAllOk 0
    (fun _ => by simp [activeCountFor])

/-- Concrete store for C3: one holder with an active slot. -/
def slotC3 : Slot :=
  { id := 0, userId := "0", discordUserId := "c3", username := "c3",
    shopType := .level1, channelId := "ch", originalChannelName := "o",
    roleId := some "r", expiresAt := some 77, isActive := true,
    createdAt := some 0 }

def stC3 : Storage := { users := [], slots := [slotC3], pings := [], nextId := 1 }

def bodyC3 : InsertSlot :=
  { userId := "u", discordUserId := "c3", username := "c3",
    shopType := .level1, channelId := "ch2", originalChannelName := "o2",
    roleId := none, expiresAt := some 77, isActive := true }

/-- C3: the claim says a grant attempt for a holder who already has an
active slot fails with DuplicateSlot at every slot-creating entry point
and leaves the store unchanged.  The HTTP create-slot route never checks:
the request succeeds and a new Slot record is persisted. -/
theorem C3_counterexample :
    (getSlotByDiscordUserId stC3 "c3").isSome = true ∧
    (postSlotsRoute stC3 bodyC3 7).1.slots.length = stC3.slots.length + 1 := by
  decide

/-- C3 (amended): through the bot's grant command, a grant attempt for a
holder with an active slot fails as a duplicate and the store is
returned unchanged; the HTTP route does not check and creates the
record. -/
theorem C3_bot_duplicate (st : Storage) (d un : String) (ty : ShopType)
    (chid chn : String) (rid : Option String) (ext : GrantExt) (now : Int)
    (s : Slot) (hs : getSlotByDiscordUserId st d = some s) :
    handleSlotAdd st d un ty chid chn rid ext now = (.duplicateSlot, st) := by
  unfold handleSlotAdd
  rw [hs]
  rfl

/-- Witness for C3's amended statement at a concrete input. -/
theorem C3_witness :
    handleSlotAdd stC3 "c3" "c3" .level4 "c" "o" (some "r") grantExtAllOk 9
      = (.duplicateSlot, stC3) :=
  C3_bot_duplicate stC3 "c3" "c3" .level4 "c" "o" (some "r") grantExtAllOk 9
    slotC3 (by decide)

def bodyC8 : InsertSlot :=
  { userId := "x", discordUserId := "c8", username := "c8",
    shopType := .level1, channelId := "c", originalChannelName := "o",
    roleId := none, expiresAt := none, isActive := true }

/-- C8: the claim says every created slot has a null expires-at exactly
when its tier is lifetime.  The HTTP create-slot route stores the
caller-supplied expires-at unchecked: a level1 (non-lifetime) slot is
persisted with a null expiry. -/
theorem C8_counterexample :
    (postSlotsRoute { users := [], slots := [], pings := [], nextId := 0 }
        bodyC8 0).2.shopType = .level1 ∧
    (postSlotsRoute { users := [], slots := [], pings := [], nextId := 0 }
        bodyC8 0).2.expiresAt = none ∧
    (shopTypes ShopType.level1).duration = some 604800000 ∧
    (postSlotsRoute { users := [], slots := [], pings := [], nextId := 0 }
        bodyC8 0).2
      ∈ (postSlotsRoute { users := [], slots := [], pings := [], nextId := 0 }
        bodyC8 0).1.slots := by
  decide

/-- C8 (amended): for slots created by the bot's grant command, expires-at
is null exactly for the two lifetime tiers, and otherwise equals now plus
the tier's catalog duration (7 days for level1); the HTTP route stores
the caller-supplied expires-at without validation. -/
theorem C8_bot_expiry (st : Storage) (d un : String) (ty : ShopType)
    (chid chn : String) (rid : Option String) (ext : GrantExt) (now : Int)
    (s : Slot) (st2 : Storage)
    (h : handleSlotAdd st d un ty chid chn rid ext now = (.created s, st2)) :
    (s.expiresAt = none ↔ (ty = .level4 ∨ ty = .partnered)) ∧
    (∀ dur, (shopTypes ty).duration = some dur → s.expiresAt = some (now + dur)) ∧
    (shopTypes ShopType.level1).duration = some 604800000 := by
  obtain ⟨hty, hexp⟩ := handleSlotAdd_created h
  refine ⟨?_, ?_, rfl⟩
  · rw [hexp]
    cases ty <;> simp [shopTypes]
  · intro dur hdur
    rw [hexp, hdur]

def slotW8 : Slot :=
  { id := 1, userId := "0", discordUserId := "w8", username := "w8",
    shopType := .level1, channelId := "c", originalChannelName := "o",
    roleId := some "r", expiresAt := some 604800100, isActive := true,
    createdAt := some 100 }

/-- Witness for C8's amended statement: a level1 grant at time 100 yields
expiry 100 + 7 days. -/
theorem C8_witness :
    (slotW8.expiresAt = none
      ↔ (ShopType.level1 = .level4 ∨ ShopType.level1 = .partnered)) ∧
    (∀ dur, (shopTypes ShopType.level1).duration = some dur →
      slotW8.expiresAt = some (100 + dur)) ∧
    (shopTypes ShopType.level1).duration = some 604800000 :=
  C8_bot_expiry { users := [], slots := [], pings := [], nextId := 0 }
    "w8" "w8" .level1 "c" "o" (some "r") grantExtAllOk 100 slotW8
    { users := [{ id := 0, discordId := "w8", username := "w8" }],
      slots := [slotW8], pings := [], nextId := 2 }
    (by decide)

theorem handleEveryonePing_some {st : Storage} {d : String} (mid chid : String)
    (ext : RevokeExt) (delOk dmOk : Bool) (now : Int) {s : Slot}
    (hs : getSlotByDiscordUserId st d = some s) :
    handleEveryonePing st d mid chid ext delOk dmOk now
      = pingWithSlot st d mid chid ext delOk dmOk now s := by
  unfold handleEveryonePing
  rw [hs]

theorem pingWithSlot_over (st : Storage) (d mid chid : String)
    (ext : RevokeExt) (dmOk : Bool) (now : Int) (s : Slot)
    (hact : s.isActive = true)
    (hq : (shopTypes s.shopType).pingsPerCooldown
      ≤ (getPingUsage st s.id (now - (shopTypes s.shopType).pingCooldown)).length) :
    ∀ delOk, pingWithSlot st d mid chid ext delOk dmOk now s
      = if delOk then
          (.overLimit, deactivateSlot st s.id,
            ExtAction.deleteMessage mid :: (revokeSlotPermissions ext s).1
              ++ (if dmOk then [ExtAction.dmUser d]
                  else [ExtAction.channelNotice chid]))
        else (.errored, st, []) := by
  intro delOk
  cases delOk <;> simp [pingWithSlot, hact, hq]

theorem pingWithSlot_under (st : Storage) (d mid chid : String)
    (ext : RevokeExt) (delOk dmOk : Bool) (now : Int) (s : Slot)
    (hact : s.isActive = true)
    (hq : (getPingUsage st s.id (now - (shopTypes s.shopType).pingCooldown)).length
      < (shopTypes s.shopType).pingsPerCooldown) :
    pingWithSlot st d mid chid ext delOk dmOk now s
      = (.recorded, (createPingUsage st s.id d mid chid now).1, []) := by
  simp [pingWithSlot, hact, Nat.not_le.mpr hq]

/-- C6: for every revoke trigger — manual removal, quota violation, expiry
— and every behaviour of the external authorization collaborator,
including every call failing, the internal deactivation commits: the
triggering slot's record ends with active = false, the failures being
swallowed by the revoke routine's catch blocks instead of propagating. -/
theorem C6_deactivation_commits :
    (∀ (st : Storage) (d : String) (ext : RevokeExt) (s : Slot),
      getSlotByDiscordUserId st d = some s →
      ∀ a ∈ (handleSlotRemove st d ext).2.1.slots,
        a.id = s.id → a.isActive = false) ∧
    (∀ (st : Storage) (d mid chid : String) (ext : RevokeExt) (dmOk : Bool)
        (now : Int) (s : Slot),
      getSlotByDiscordUserId st d = some s →
      (shopTypes s.shopType).pingsPerCooldown
        ≤ (getPingUsage st s.id (now - (shopTypes s.shopType).pingCooldown)).length →
      ∀ a ∈ (handleEveryonePing st d mid chid ext true dmOk now).2.1.slots,
        a.id = s.id → a.isActive = false) ∧
    (∀ (ext : RevokeExt) (s : Slot) (st0 : Storage) (acts : List ExtAction),
      ∀ a ∈ (expireSlotStep ext s (st0, acts)).1.slots,
        a.id = s.id → a.isActive = false) := by
  refine ⟨?_, ?_, ?_⟩
  · intro st d ext s hs a ha haid
    unfold handleSlotRemove at ha
    rw [hs] at ha
    exact deact_id_inactive ha haid
  · intro st d mid chid ext dmOk now s hs hq a ha haid
    rw [handleEveryonePing_some mid chid ext true dmOk now hs,
      pingWithSlot_over st d mid chid ext dmOk now s
        (getSlot_some_props hs).2.2 hq true, if_pos rfl] at ha
    exact deact_id_inactive ha haid
  · intro ext s st0 acts a ha haid
    exact deact_id_inactive ha haid

/-- Witness for C6: the manual-remove conjunct at a concrete store, with
every external revoke call failing; the slot record still ends
inactive. -/
theorem C6_witness :
    ({ slotC1 with isActive := false } : Slot).isActive = false :=
  C6_deactivation_commits.1 stC1 "c1" revokeExtAllFail slotC1 (by decide)
    { slotC1 with isActive := false } (by decide) (by decide)

/-- C7: one expiration-sweep tick deactivates every expired slot it
fetched, for every assignment of external-call failures to slots — a
failure while processing one slot never aborts the processing of the
others, because each slot's external failures are caught inside the
per-slot revoke routine. -/
theorem C7_sweep_isolation (st : Storage) (now : Int) (ext : Nat → RevokeExt)
    (s : Slot) (hs : s ∈ getExpiredSlots st now) :
    ∀ a ∈ (expirationTick st now ext).1.slots,
      a.id = s.id → a.isActive = false :=
  expirationTick_deactivates st now ext s hs

def slotW7A : Slot :=
  { id := 0, userId := "0", discordUserId := "wa", username := "wa",
    shopType := .level1, channelId := "ca", originalChannelName := "oa",
    roleId := some "r", expiresAt := some 10, isActive := true,
    createdAt := some 0 }

def slotW7B : Slot :=
  { id := 1, userId := "1", discordUserId := "wb", username := "wb",
    shopType := .level2, channelId := "cb", originalChannelName := "ob",
    roleId := some "r", expiresAt := some 20, isActive := true,
    createdAt := some 0 }

def stW7 : Storage :=
  { users := [], slots := [slotW7A, slotW7B], pings := [], nextId := 2 }

/-- Per-slot external behaviour: every call for the first slot fails,
every call for the second succeeds. -/
def extW7 : Nat → RevokeExt := fun i =>
  if i == 0 then revokeExtAllFail else revokeExtAllOk

/-- Witness for C7: with the first slot's external calls all failing, the
second expired slot of the same tick is still deactivated. -/
theorem C7_witness : ({ slotW7B with isActive := false } : Slot).isActive = false :=
  C7_sweep_isolation stW7 1000 extW7 slotW7B (by decide)
    { slotW7B with isActive := false } (by decide) (by decide)

/-- C10: `getSlotStats` counts every slot record (inactive included) in
totalSlots; the active ones in activeSlots (hence activeSlots ≤
totalSlots); the active slots with a non-null expiry at most 24 hours
from now in expiringSoon — a bound that also admits slots already past
expiry; and the ping events stamped on or after the day's midnight in
todayPings, regardless of slot or activity status. -/
theorem C10_stats (st : Storage) (now todayStart : Int) :
    (getSlotStats st now todayStart).totalSlots = st.slots.length ∧
    (getSlotStats st now todayStart).activeSlots
      = (st.slots.filter (fun s => s.isActive)).length ∧
    (getSlotStats st now todayStart).activeSlots
      ≤ (getSlotStats st now todayStart).totalSlots ∧
    (getSlotStats st now todayStart).expiringSoon
      = ((st.slots.filter (fun s => s.isActive)).filter
          (fun s => slotExpiresBy s (now + 86400000))).length ∧
    (∀ s ∈ st.slots, s.isActive = true → ∀ e, s.expiresAt = some e →
      e ≤ now → slotExpiresBy s (now + 86400000) = true) ∧
    (getSlotStats st now todayStart).todayPings
      = (st.pings.filter (fun p => pingOnOrAfter p todayStart)).length := by
  refine ⟨rfl, rfl, ?_, rfl, ?_, rfl⟩
  · exact List.length_filter_le _ _
  · intro s _ _ e he hle
    simp only [slotExpiresBy, he, decide_eq_true_eq]
    omega

def stW10 : Storage :=
  { users := [],
    slots := [{ id := 0, userId := "0", discordUserId := "wx", username := "wx",
                shopType := .level1, channelId := "c", originalChannelName := "o",
                roleId := none, expiresAt := some 500, isActive := true,
                createdAt := some 0 },
              { id := 1, userId := "1", discordUserId := "wy", username := "wy",
                shopType := .level4, channelId := "c", originalChannelName := "o",
                roleId := none, expiresAt := none, isActive := false,
                createdAt := some 0 }],
    pings := [{ id := 2, slotId := 0, discordUserId := "wx",
                usedAt := some 900, messageId := none, channelId := none }],
    nextId := 3 }

/-- Witness for C10 at a concrete store and time. -/
theorem C10_witness :
    (getSlotStats stW10 1000 600).totalSlots = stW10.slots.length ∧
    (getSlotStats stW10 1000 600).activeSlots
      = (stW10.slots.filter (fun s => s.isActive)).length ∧
    (getSlotStats stW10 1000 600).activeSlots
      ≤ (getSlotStats stW10 1000 600).totalSlots ∧
    (getSlotStats stW10 1000 600).expiringSoon
      = ((stW10.slots.filter (fun s => s.isActive)).filter
          (fun s => slotExpiresBy s (1000 + 86400000))).length ∧
    (∀ s ∈ stW10.slots, s.isActive = true → ∀ e, s.expiresAt = some e →
      e ≤ 1000 → slotExpiresBy s (1000 + 86400000) = true) ∧
    (getSlotStats stW10 1000 600).todayPings
      = (stW10.pings.filter (fun p => pingOnOrAfter p 600)).length :=
  C10_stats stW10 1000 600

theorem handleEveryonePing_none {st : Storage} {d : String} (mid chid : String)
    (ext : RevokeExt) (delOk dmOk : Bool) (now : Int)
    (h : getSlotByDiscordUserId st d = none) :
    handleEveryonePing st d mid chid ext delOk dmOk now = (.ignored, st, []) := by
  unfold handleEveryonePing
  rw [h]

/-- C2: for a broadcast attempt by a holder with an active slot, with W
the tier's window and Q its quota, and no ping event stamped in the
future: when the count of the slot's ping events with used-at in
[now − W, now] has reached Q, the attempt is signaled over-limit and no
ping event is recorded for it (for every outcome of the message
deletion); otherwise it is signaled allowed (recorded) and exactly one
new ping event is appended. -/
theorem C2_quota_decision (st : Storage) (d mid chid : String)
    (ext : RevokeExt) (dmOk : Bool) (now : Int) (s : Slot)
    (hs : getSlotByDiscordUserId st d = some s)
    (hb : pingsNotAfter st now = true) :
    ((shopTypes s.shopType).pingsPerCooldown
        ≤ pingsInInterval st s.id (now - (shopTypes s.shopType).pingCooldown) now →
      (∀ delOk, (handleEveryonePing st d mid chid ext delOk dmOk now).2.1.pings
          = st.pings) ∧
      (handleEveryonePing st d mid chid ext true dmOk now).1 = .overLimit) ∧
    (pingsInInterval st s.id (now - (shopTypes s.shopType).pingCooldown) now
        < (shopTypes s.shopType).pingsPerCooldown →
      ∀ delOk,
        (handleEveryonePing st d mid chid ext delOk dmOk now).1 = .recorded ∧
        (handleEveryonePing st d mid chid ext delOk dmOk now).2.1.pings
          = st.pings
            ++ [{ id := st.nextId, slotId := s.id, discordUserId := d,
                  usedAt := some now, messageId := some mid,
                  channelId := some chid }]) := by
  have hwin := getPingUsage_length_eq st s.id now
    (shopTypes s.shopType).pingCooldown hb
  have hact := (getSlot_some_props hs).2.2
  constructor
  · intro hq
    rw [← hwin] at hq
    constructor
    · intro delOk
      rw [handleEveryonePing_some mid chid ext delOk dmOk now hs,
        pingWithSlot_over st d mid chid ext dmOk now s hact hq delOk]
      cases delOk
      · rfl
      · rfl
    · rw [handleEveryonePing_some mid chid ext true dmOk now hs,
        pingWithSlot_over st d mid chid ext dmOk now s hact hq true, if_pos rfl]
  · intro hq delOk
    rw [← hwin] at hq
    rw [handleEveryonePing_some mid chid ext delOk dmOk now hs,
      pingWithSlot_under st d mid chid ext delOk dmOk now s hact hq]
    exact ⟨rfl, rfl⟩

/-- The partnered scenario: quota 2, window 24h. -/
def slotC2 : Slot :=
  { id := 0, userId := "0", discordUserId := "c2", username := "c2",
    shopType := .partnered, channelId := "ch", originalChannelName := "o",
    roleId := some "r", expiresAt := none, isActive := true,
    createdAt := some 0 }

def stC2 : Storage := { users := [], slots := [slotC2], pings := [], nextId := 1 }

def c2r1 : PingOutcome × Storage × List ExtAction :=
  handleEveryonePing stC2 "c2" "m1" "ch" revokeExtAllOk true true 1000

def c2r2 : PingOutcome × Storage × List ExtAction :=
  handleEveryonePing c2r1.2.1 "c2" "m2" "ch" revokeExtAllOk true true 2000

/-- Witness for C2: the partnered slot's first two attempts inside the
window are recorded; the third is signaled over-limit with no new ping
event, by the theorem applied to the store that holds the two events. -/
theorem C2_witness :
    c2r1.1 = .recorded ∧ c2r2.1 = .recorded ∧
    (handleEveryonePing c2r2.2.1 "c2" "m3" "ch" revokeExtAllOk true true 3000).1
      = .overLimit ∧
    (handleEveryonePing c2r2.2.1 "c2" "m3" "ch" revokeExtAllOk true true 3000).2.1.pings
      = c2r2.2.1.pings := by
  have h := C2_quota_decision c2r2.2.1 "c2" "m3" "ch" revokeExtAllOk true 3000
    slotC2 (by decide) (by decide)
  exact ⟨by decide, by decide, (h.1 (by decide)).2, (h.1 (by decide)).1 true⟩

/-- C5: revoke is idempotent.  A second expiration sweep at the same
time is a complete no-op — same store, no reconciliation calls — because
every slot the first sweep fetched is now inactive and the expired-slot
query filters on the active flag.  Likewise, after a quota-violation
revoke, a repeated broadcast attempt by the same holder (who held at
most one active slot) finds no active slot and is a no-op: no state
change, no second reconciliation call, and no error. -/
theorem C5_revoke_idempotent :
    (∀ (st : Storage) (now : Int) (ext ext2 : Nat → RevokeExt),
      expirationTick (expirationTick st now ext).1 now ext2
        = ((expirationTick st now ext).1, [])) ∧
    (∀ (st : Storage) (d mid mid2 chid : String) (ext ext2 : RevokeExt)
        (dmOk dmOk2 delOk2 : Bool) (now now2 : Int) (s : Slot),
      getSlotByDiscordUserId st d = some s →
      (shopTypes s.shopType).pingsPerCooldown
        ≤ (getPingUsage st s.id (now - (shopTypes s.shopType).pingCooldown)).length →
      activeCountFor st d ≤ 1 →
      handleEveryonePing (handleEveryonePing st d mid chid ext true dmOk now).2.1
          d mid2 chid ext2 delOk2 dmOk2 now2
        = (.ignored,
            (handleEveryonePing st d mid chid ext true dmOk now).2.1, [])) := by
  constructor
  · intro st now ext ext2
    have h := expired_after_tick st now ext
    unfold expirationTick at h ⊢
    rw [h]
    rfl
  · intro st d mid mid2 chid ext ext2 dmOk dmOk2 delOk2 now now2 s hs hq hone
    have hact := (getSlot_some_props hs).2.2
    rw [handleEveryonePing_some mid chid ext true dmOk now hs,
      pingWithSlot_over st d mid chid ext dmOk now s hact hq true, if_pos rfl]
    exact handleEveryonePing_none mid2 chid ext2 delOk2 dmOk2 now2
      (getSlot_deact_none hs hone)

/-- A level3 slot (quota 1) with one ping already inside the window. -/
def slotW5 : Slot :=
  { id := 0, userId := "0", discordUserId := "c5", username := "c5",
    shopType := .level3, channelId := "ch", originalChannelName := "o",
    roleId := some "r", expiresAt := some 999999999, isActive := true,
    createdAt := some 0 }

def stW5 : Storage :=
  { users := [],
    slots := [slotW5],
    pings := [{ id := 1, slotId := 0, discordUserId := "c5",
                usedAt := some 500, messageId := none, channelId := none }],
    nextId := 2 }

/-- Witness for C5: the quota-violation revoke fires once; the repeated
trigger for the now-inactive slot is a no-op with no reconciliation
calls. -/
theorem C5_witness :
    handleEveryonePing
        (handleEveryonePing stW5 "c5" "m1" "ch" revokeExtAllOk true true 1000).2.1
        "c5" "m2" "ch" revokeExtAllOk true true 2000
      = (.ignored,
          (handleEveryonePing stW5 "c5" "m1" "ch" revokeExtAllOk true true 1000).2.1,
          []) :=
  C5_revoke_idempotent.2 stW5 "c5" "m1" "m2" "ch" revokeExtAllOk revokeExtAllOk
    true true true 1000 2000 slotW5 (by decide) (by decide) (by decide)

end SlotWatcher
